import Mathlib

/-!
# Verification of the shell_gpt local-memory core (`sgpt.py`)

Shallow embedding of the memory-related parts of `sgpt.py`:

* the Fact Store (`save_fact`, `clear_fact_memory`, and the two read paths
  in `main`: the `retrieve_fact` branch and the `ls_memory` branch),
* the Interaction Store (`write_to_memory` and the `cache` recall branch
  of `main`),
* the relevance filter (`filter_facts`, whose definition lives in
  `utils/`, outside the provided sources, and is therefore modelled from
  the spec),
* the routing structure of `main` (the ordered `if ...: return` chain).

Files are modelled as explicit state: the fact-memory file is an
`Option (List String)` (`none` = the file does not exist; each list
element is one appended line, written by `save_fact` as `fact + "\n"`),
and the interaction-store file `.inst_memory.json` is a `MemFile`
(missing, present-but-not-valid-JSON, or a decoded list of records).
Wall-clock reads (`gmtime()`) are modelled by passing the clock value in
explicitly; a `Clock` carries both the UTC reading (`gmtime`) and the
local reading (`localtime`) so that statements about which one the code
uses can be made.
-/

namespace Sgpt

/-! ## Timestamps

`sgpt.py` line 230: `curr_time = strftime("%H:%M:%S %d/%m/%Y", gmtime())`.
A broken-down time value as returned by `gmtime()`/`localtime()`. -/

structure Timestamp where
  hour : Nat
  min : Nat
  sec : Nat
  day : Nat
  month : Nat
  year : Nat
deriving DecidableEq

/-- Field ranges guaranteed for any value produced by `gmtime()`:
`tm_hour` 0–23, `tm_min` 0–59, `tm_sec` 0–60 (leap second), `tm_mday`
1–31, `tm_mon` (already converted to 1-based month) 1–12, and a
four-digit year. -/
def Timestamp.valid (t : Timestamp) : Prop :=
  t.hour < 24 ∧ t.min < 60 ∧ t.sec ≤ 60 ∧ 1 ≤ t.day ∧ t.day ≤ 31 ∧
    1 ≤ t.month ∧ t.month ≤ 12 ∧ 1000 ≤ t.year ∧ t.year ≤ 9999

instance (t : Timestamp) : Decidable t.valid := by
  unfold Timestamp.valid
  infer_instance

/-- Two-digit zero-padded decimal field, as produced by the `strftime`
conversions `%H`, `%M`, `%S`, `%d`, `%m` for field values below 100. -/
def pad2 (n : Nat) : String :=
  String.mk [Nat.digitChar (n / 10), Nat.digitChar (n % 10)]

/-- Four-digit decimal field, as produced by `%Y` for years 1000–9999. -/
def pad4 (n : Nat) : String :=
  String.mk [Nat.digitChar (n / 1000 % 10), Nat.digitChar (n / 100 % 10),
    Nat.digitChar (n / 10 % 10), Nat.digitChar (n % 10)]

/-- `strftime("%H:%M:%S %d/%m/%Y", t)`. -/
def strftimeHMSDMY (t : Timestamp) : String :=
  pad2 t.hour ++ ":" ++ pad2 t.min ++ ":" ++ pad2 t.sec ++ " " ++
    pad2 t.day ++ "/" ++ pad2 t.month ++ "/" ++ pad4 t.year

/-- The wall clocks available to the process at the moment
`memorize_fact` runs: the UTC reading (what Python's `gmtime()` returns)
and the local-timezone reading (what `localtime()` would return). -/
structure Clock where
  gmtimeNow : Timestamp
  localtimeNow : Timestamp
deriving DecidableEq

/-- Does a character list start with the 19-character timestamp pattern
`HH:MM:SS DD/MM/YYYY` (digits at the `H`/`M`/`S`/`D`/`Y` positions,
`:`/` `/`/` separators at the fixed positions)? -/
def matchesTS : List Char → Bool
  | h1 :: h2 :: c1 :: mi1 :: mi2 :: c2 :: s1 :: s2 :: sp :: d1 :: d2 ::
      sl1 :: mo1 :: mo2 :: sl2 :: y1 :: y2 :: y3 :: y4 :: _ =>
    h1.isDigit && h2.isDigit && (c1 == ':') && mi1.isDigit && mi2.isDigit &&
      (c2 == ':') && s1.isDigit && s2.isDigit && (sp == ' ') &&
      d1.isDigit && d2.isDigit && (sl1 == '/') && mo1.isDigit &&
      mo2.isDigit && (sl2 == '/') && y1.isDigit && y2.isDigit &&
      y3.isDigit && y4.isDigit
  | _ => false

/-! ## Fact Store

`FACT_MEMORY_FILE` is a plain-text file; `save_fact` (lines 86–91) opens
it in append mode and writes `fact + "\n"`, creating the parent
directory first when the file does not exist. The file state is the
list of lines appended so far (`none` = file absent), plus whether the
parent directory exists. -/

structure FactFS where
  parentDirExists : Bool
  factFile : Option (List String)
deriving DecidableEq

/-- `save_fact(fact)` (lines 86–91): `mkdir(parents=True, exist_ok=True)`
on the parent when the file is absent, then append `fact + "\n"` (one
new line; opening in mode `"a"` creates the file when absent and never
rewrites existing content). -/
def save_fact (fs : FactFS) (fact : String) : FactFS :=
  { parentDirExists := fs.parentDirExists || fs.factFile.isNone,
    factFile := some (fs.factFile.getD [] ++ [fact]) }

/-- `clear_fact_memory()` (lines 93–95): unlink the file if it exists. -/
def clear_fact_memory (fs : FactFS) : FactFS :=
  { fs with factFile := none }

/-- The text of the fact file: its lines, each terminated by the `"\n"`
that `save_fact` wrote. -/
def readAllText (lines : List String) : String :=
  String.join (lines.map (fun l => l ++ "\n"))

/-- A persistence-layer failure: the exception raised by the Python I/O
or JSON layer. -/
inductive PersistenceError where
  | fileNotFound
  | corruptData
deriving DecidableEq

/-- `FACT_MEMORY_FILE.read_text()`: returns the whole file text, or
raises `FileNotFoundError` when the file does not exist. -/
def fact_memory_read_text (fs : FactFS) : Except PersistenceError String :=
  match fs.factFile with
  | none => .error .fileNotFound
  | some lines => .ok (readAllText lines)

/-- The `ls_memory` branch of `main` (lines 285–287): reads the fact
file unconditionally (`all_facts = FACT_MEMORY_FILE.read_text()`), with
no existence check. -/
def ls_memory_step (fs : FactFS) : Except PersistenceError String :=
  fact_memory_read_text fs

/-- Outcome of the read part of the `retrieve_fact` branch. -/
inductive RetrieveRead where
  | noFacts
  | allFacts (text : String)
deriving DecidableEq

/-- The read part of the `retrieve_fact` branch of `main`
(lines 234–242): if the fact file does not exist, print
"No facts have been memorized yet." and return (a normal negative
result, no read is attempted); otherwise read the whole file. -/
def retrieve_fact_read (fs : FactFS) : RetrieveRead :=
  match fs.factFile with
  | none => .noFacts
  | some lines => .allFacts (readAllText lines)

/-- The `memorize_fact` branch of `main` (lines 229–232):
`curr_time = strftime("%H:%M:%S %d/%m/%Y", gmtime())` followed by
`save_fact(curr_time + " " + prompt)`. Note the source reads the UTC
clock (`gmtime`). -/
def memorize_fact_step (c : Clock) (fs : FactFS) (prompt : String) : FactFS :=
  save_fact fs (strftimeHMSDMY c.gmtimeNow ++ " " ++ prompt)

/-- The spec's wording of the same operation ("formats `factText` with a
timestamp prefix using the local wall-clock time at call time"): the
timestamp taken from the local clock instead of the UTC clock. Stated
for comparison with `memorize_fact_step`, which embeds the source. -/
def memorize_fact_localtime_spec (c : Clock) (fs : FactFS) (prompt : String) : FactFS :=
  save_fact fs (strftimeHMSDMY c.localtimeNow ++ " " ++ prompt)

/-! ## Relevance filter -/

/-- The filtering modes named by the spec (§4.3). The source call site
(line 243) passes `filter="hf"`, the embedding-rank mode. -/
inductive FilterMode where
  | passthrough
  | embeddingRank
deriving DecidableEq

/-- Modelled from the spec: `filter_facts` is defined in
`utils/prompt_functions`, which is not among the provided sources; only
its call site (`sgpt.py` line 243) is. Per spec §4.3, with
`mode = passthrough` it returns `fullFactText` unchanged, and with
`mode = embeddingRank` it delegates to the external embedding/ranking
capability (here an opaque function argument `ranker`). -/
def filter_facts (query fullFactText : String) (mode : FilterMode)
    (ranker : String → String → String) : String :=
  match mode with
  | .passthrough => fullFactText
  | .embeddingRank => ranker query fullFactText

/-! ## Interaction Store -/

/-- One record of `.inst_memory.json`, the dictionary built by
`write_to_memory` (lines 348–354). -/
structure InteractionRecord where
  input : String
  output : String
  name : String
  favorite : Bool
  uid : Bool
deriving DecidableEq

instance : Inhabited InteractionRecord :=
  ⟨⟨"", "", "", false, false⟩⟩

/-- The state of the `.inst_memory.json` file: absent (opening with mode
`"r+"` raises `FileNotFoundError`), present but not a valid JSON list of
records (`json.load` raises), or a decoded ordered list of records. -/
inductive MemFile where
  | missing
  | invalid
  | valid (records : List InteractionRecord)
deriving DecidableEq

/-- `write_to_memory(input_text, output_text, name, favorite)`
(lines 347–363): open `.inst_memory.json` with mode `"r+"` (fails when
the file is missing), `json.load` it (fails when it is not valid
structured data), append the new dictionary (with `uid = False`), and
rewrite the whole file. There is no create-if-absent fallback. -/
def write_to_memory (file : MemFile) (input_text output_text nm : String)
    (favorite : Bool) : Except PersistenceError MemFile :=
  match file with
  | .missing => .error .fileNotFound
  | .invalid => .error .corruptData
  | .valid data =>
      .ok (.valid (data ++ [⟨input_text, output_text, nm, favorite, false⟩]))

/-- Python's `str.isdigit()` restricted to ASCII strings: nonempty and
every character a decimal digit. This is the test `prompt.isdigit()` on
line 294; on ASCII tokens it holds exactly when the token is a canonical
non-negative decimal integer literal. -/
def isdigit (s : String) : Bool :=
  !s.isEmpty && s.data.all Char.isDigit

/-- `int(s)` for a decimal digit string. -/
def strToNat (s : String) : Nat :=
  s.data.foldl (fun a c => a * 10 + (c.toNat - 48)) 0

/-- The user-visible outcome of the `cache` branch: the recalled
`output` text (written via `typer_writer`), the printed
"Index is out of range" message, or the printed "need to implement lol"
placeholder of the non-numeric branch. -/
inductive CacheOutcome where
  | output (text : String)
  | indexOutOfRange
  | invalidIndex
deriving DecidableEq

/-- The `cache` branch of `main` (lines 293–306): if the prompt is a
digit string, open and `json.load` `.inst_memory.json` (a persistence
failure when missing or corrupt), let `N = len(data)`; when
`int(prompt) >= N` print "Index is out of range", otherwise write
`data[N - int(prompt) - 1]["output"]`. A non-digit prompt only prints
the placeholder, without touching the file. -/
def cacheStep (file : MemFile) (prompt : String) :
    Except PersistenceError CacheOutcome :=
  if isdigit prompt then
    match file with
    | .missing => .error .fileNotFound
    | .invalid => .error .corruptData
    | .valid data =>
        if data.length ≤ strToNat prompt then
          .ok .indexOutOfRange
        else
          .ok (.output ((data.getD (data.length - strToNat prompt - 1)
            default).output))
  else
    .ok .invalidIndex

/-! ## Routing structure of `main` -/

/-- The flags and argument-shape of one CLI invocation, as far as the
routing chain of `main` consults them. `promptPresent` is the truthiness
of the `prompt` argument (Python `if not prompt`). -/
structure MainFlags where
  add_instruction : Bool
  clear_facts : Bool
  memorize_fact : Bool
  retrieve_fact : Bool
  cache : Bool
  promptPresent : Bool
  editor : Bool
deriving DecidableEq

/-- The operation an invocation of `main` performs. Each branch of the
source ends in `return`, so exactly one is taken. -/
inductive MainOp where
  | addInstructionOp
  | clearFactsOp
  | memorizeFactOp
  | retrieveFactOp
  | configOrListOp
  | cacheRecallOp
  | completionOp
deriving DecidableEq

/-- The `if ...: return` chain of `main` (lines 184–344), in source
order: `add_instruction` (line 184), `clear_facts` (225),
`memorize_fact` (229), `retrieve_fact` (234), the
`not prompt and not editor` configuration/listing block (264), `cache`
(293), and finally the completion request. -/
def mainRoute (f : MainFlags) : MainOp :=
  if f.add_instruction then .addInstructionOp
  else if f.clear_facts then .clearFactsOp
  else if f.memorize_fact then .memorizeFactOp
  else if f.retrieve_fact then .retrieveFactOp
  else if !f.promptPresent && !f.editor then .configOrListOp
  else if f.cache then .cacheRecallOp
  else .completionOp

/-- Is an operation one of the four memory operations of the claim
(clear facts, memorize fact, retrieve fact, cache recall)? -/
def MainOp.isMemoryOp : MainOp → Bool
  | .clearFactsOp => true
  | .memorizeFactOp => true
  | .retrieveFactOp => true
  | .cacheRecallOp => true
  | _ => false

/-- The memory operations performed by one invocation: `main` takes a
single branch, so this is the singleton of the routed operation when it
is a memory operation, and empty otherwise. -/
def executedMemoryOps (f : MainFlags) : List MainOp :=
  if (mainRoute f).isMemoryOp then [mainRoute f] else []

/-! ## Helper lemmas -/

theorem digitChar_isDigit (k : Nat) (h : k < 10) : (Nat.digitChar k).isDigit = true := by
  interval_cases k <;> rfl

theorem head_get_aux {α : Type} (l : List α) (h : l ≠ []) (hp : 0 < l.length) :
    l.head h = l.get ⟨0, hp⟩ := by
  cases l with
  | nil => cases h rfl
  | cons a t => rfl

theorem get_val_congr {α : Type} (l : List α) (a b : Nat) (ha : a < l.length)
    (hb : b < l.length) (h : a = b) : l.get ⟨a, ha⟩ = l.get ⟨b, hb⟩ := by
  subst h
  rfl

theorem strftime_data (t : Timestamp) (s : String) :
    (strftimeHMSDMY t ++ s).data =
      Nat.digitChar (t.hour / 10) :: Nat.digitChar (t.hour % 10) :: ':' ::
      Nat.digitChar (t.min / 10) :: Nat.digitChar (t.min % 10) :: ':' ::
      Nat.digitChar (t.sec / 10) :: Nat.digitChar (t.sec % 10) :: ' ' ::
      Nat.digitChar (t.day / 10) :: Nat.digitChar (t.day % 10) :: '/' ::
      Nat.digitChar (t.month / 10) :: Nat.digitChar (t.month % 10) :: '/' ::
      Nat.digitChar (t.year / 1000 % 10) :: Nat.digitChar (t.year / 100 % 10) ::
      Nat.digitChar (t.year / 10 % 10) :: Nat.digitChar (t.year % 10) :: s.data := by
  simp [strftimeHMSDMY, pad2, pad4, String.data_append]

theorem matchesTS_strftime (t : Timestamp) (hv : t.valid) (s : String) :
    matchesTS ((strftimeHMSDMY t ++ s).data) = true := by
  obtain ⟨h1, h2, h3, h4, h5, h6, h7, h8, h9⟩ := hv
  rw [strftime_data]
  simp only [matchesTS, Bool.and_eq_true, beq_self_eq_true, and_true, true_and]
  repeat' apply And.intro
  all_goals first
    | rfl
    | exact digitChar_isDigit _ (by omega)

/-! ## Claims about the Interaction Store -/

/-- C1: for an interaction store holding records `data` and a caller
token `s` denoting the number `i` with `i < N` (`N` the store length),
cache recall returns the `output` of the record at position
`N - i - 1`; in particular index 0 yields the most recently appended
(last) record, and index `N - 1` yields the first-ever appended (head)
record. -/
theorem cache_recall_reverse_index (data : List InteractionRecord) (s : String)
    (i : Nat) (hs : isdigit s = true) (hv : strToNat s = i)
    (hi : i < data.length) :
    cacheStep (.valid data) s =
      .ok (.output ((data.get ⟨data.length - i - 1, by omega⟩).output)) ∧
    (i = 0 →
      cacheStep (.valid data) s =
        .ok (.output ((data.getLast (by rintro rfl; simp at hi)).output))) ∧
    (i = data.length - 1 →
      cacheStep (.valid data) s =
        .ok (.output ((data.head (by rintro rfl; simp at hi)).output))) := by
  subst hv
  have hlt : ¬ data.length ≤ strToNat s := by omega
  have hmain : cacheStep (.valid data) s =
      .ok (.output ((data.get ⟨data.length - strToNat s - 1, by omega⟩).output)) := by
    simp only [cacheStep, hs, if_true]
    rw [if_neg hlt, List.getD_eq_get _ _ (by omega)]
  refine ⟨hmain, fun h0 => ?_, fun hN => ?_⟩
  · rw [hmain, List.getLast_eq_get]
    rw [get_val_congr data (data.length - strToNat s - 1) (data.length - 1)
      (by omega) (by omega) (by omega)]
  · rw [hmain, head_get_aux _ _ (by omega)]
    rw [get_val_congr data (data.length - strToNat s - 1) 0
      (by omega) (by omega) (by omega)]

/-- Witness for C1: a two-record store; token "0" recalls the output of
the most recently appended record. -/
theorem cache_recall_reverse_index_witness :
    cacheStep (.valid [⟨"list files", "ls -la", "bro", false, false⟩,
        ⟨"show date", "date", "bro", false, false⟩]) "0" =
      .ok (.output "date") := by
  have h := (cache_recall_reverse_index
    [⟨"list files", "ls -la", "bro", false, false⟩,
      ⟨"show date", "date", "bro", false, false⟩] "0" 0
    (by decide) (by decide) (by decide)).1
  simpa using h

/-- C2: for a store of length `N` and a numeric token denoting any
`i ≥ N`, cache recall reports the out-of-range outcome (the printed
"Index is out of range" message followed by a normal return), and never
a record. -/
theorem cache_recall_out_of_range (data : List InteractionRecord) (s : String)
    (hs : isdigit s = true) (hge : data.length ≤ strToNat s) :
    cacheStep (.valid data) s = .ok .indexOutOfRange ∧
    ∀ t, cacheStep (.valid data) s ≠ .ok (.output t) := by
  have h1 : cacheStep (.valid data) s = .ok .indexOutOfRange := by
    simp only [cacheStep, hs, if_true]
    rw [if_pos hge]
  refine ⟨h1, fun t ht => ?_⟩
  rw [h1] at ht
  simp at ht

/-- Witness for C2: recalling index 2 from a store of length 1. -/
theorem cache_recall_out_of_range_witness :
    cacheStep (.valid [⟨"list files", "ls -la", "bro", false, false⟩]) "2" =
      .ok .indexOutOfRange :=
  (cache_recall_out_of_range [⟨"list files", "ls -la", "bro", false, false⟩]
    "2" (by decide) (by decide)).1

/-- C3: appending one record via `write_to_memory` to a store holding
`data` succeeds and yields `data ++ [record]`: the length grows by
exactly 1 and the first `data.length` positions — all previously stored
records, in their original order — are unchanged. -/
theorem write_to_memory_append_frame (data : List InteractionRecord)
    (inp outp nm : String) (fav : Bool) :
    write_to_memory (.valid data) inp outp nm fav =
      .ok (.valid (data ++ [⟨inp, outp, nm, fav, false⟩])) ∧
    (data ++ [(⟨inp, outp, nm, fav, false⟩ : InteractionRecord)]).length =
      data.length + 1 ∧
    (data ++ [(⟨inp, outp, nm, fav, false⟩ : InteractionRecord)]).take
      data.length = data := by
  refine ⟨rfl, by simp, List.take_left data _⟩

/-- C7: for every caller token that is not a digit string (not parseable
as a non-negative integer), the cache branch yields the `invalidIndex`
outcome — without touching the store — and that outcome is distinct from
`indexOutOfRange`. -/
theorem cache_recall_invalid_index (file : MemFile) (s : String)
    (hs : isdigit s = false) :
    cacheStep file s = .ok .invalidIndex ∧
    CacheOutcome.invalidIndex ≠ CacheOutcome.indexOutOfRange := by
  refine ⟨?_, by simp⟩
  simp [cacheStep, hs]

/-- Witness for C7: the token "not a number" on a missing store still
yields the `invalidIndex` outcome. -/
theorem cache_recall_invalid_index_witness :
    cacheStep .missing "not a number" = .ok .invalidIndex :=
  (cache_recall_invalid_index .missing "not a number" (by decide)).1

/-- C8: appending to the Interaction Store fails with a persistence
error when the backing file is missing (`FileNotFoundError` from mode
`"r+"`) or not valid structured data (`json.load` failure); by contrast
`save_fact` on an absent fact file creates it (and its parent directory)
and succeeds — the create-if-absent fallback exists only for the Fact
Store. -/
theorem write_to_memory_no_create_fallback (inp outp nm : String) (fav : Bool)
    (p : Bool) (x : String) :
    write_to_memory .missing inp outp nm fav = .error .fileNotFound ∧
    write_to_memory .invalid inp outp nm fav = .error .corruptData ∧
    (save_fact ⟨p, none⟩ x).factFile = some [x] ∧
    (save_fact ⟨p, none⟩ x).parentDirExists = true := by
  refine ⟨rfl, rfl, rfl, ?_⟩
  simp [save_fact]

/-! ## Claims about the Fact Store -/

/-- C4 counterexample: the `ls_memory` fact-reading path, run when the
fact file has never been created, raises `FileNotFoundError` (the
unguarded `FACT_MEMORY_FILE.read_text()` on line 286) instead of
returning empty text without failing. -/
theorem ls_memory_absent_raises :
    ls_memory_step ⟨false, none⟩ = .error .fileNotFound ∧
    ls_memory_step ⟨false, none⟩ ≠ .ok "" := by
  refine ⟨rfl, fun h => ?_⟩
  simp [ls_memory_step, fact_memory_read_text] at h

/-- C4 (amended): when the fact file has never been created, the
`retrieve_fact` path treats it as a normal empty state (it prints
"No facts have been memorized yet." and returns without reading and
without failing), while the `ls_memory` path reads unconditionally and
fails with a file-not-found persistence error. -/
theorem fact_read_paths_absent (fs : FactFS) (h : fs.factFile = none) :
    retrieve_fact_read fs = .noFacts ∧
    ls_memory_step fs = .error .fileNotFound := by
  obtain ⟨p, f⟩ := fs
  cases h
  exact ⟨rfl, rfl⟩

/-- Witness for the amended C4: the fresh state with no fact file. -/
theorem fact_read_paths_absent_witness :
    retrieve_fact_read ⟨false, none⟩ = RetrieveRead.noFacts ∧
    ls_memory_step ⟨false, none⟩ = .error .fileNotFound :=
  fact_read_paths_absent ⟨false, none⟩ rfl

/-- C5: memorizing a fact `x` at any clock reading with in-range fields
appends to the store a line equal to the formatted timestamp, a space,
and `x`: that line ends in `x` and its first 19 characters match the
pattern `HH:MM:SS DD/MM/YYYY`, so reading all facts afterwards yields
text whose last line ends in `x` under a timestamp of that pattern. -/
theorem memorize_fact_roundtrip (c : Clock) (fs : FactFS) (x : String)
    (hv : c.gmtimeNow.valid) :
    ∃ l, ((memorize_fact_step c fs x).factFile.getD []).getLast? = some l ∧
      l = strftimeHMSDMY c.gmtimeNow ++ " " ++ x ∧
      (∃ q, l = q ++ x) ∧
      matchesTS l.data = true := by
  refine ⟨strftimeHMSDMY c.gmtimeNow ++ " " ++ x, ?_, rfl,
    ⟨strftimeHMSDMY c.gmtimeNow ++ " ", by rw [String.append_assoc]⟩, ?_⟩
  · exact List.getLast?_concat _
  · have h := matchesTS_strftime c.gmtimeNow hv (" " ++ x)
    rwa [← String.append_assoc] at h

/-- Witness for C5: memorizing "coffee machine is broken" at
12:34:56 07/08/2023 into a never-created store. -/
theorem memorize_fact_roundtrip_witness :
    ∃ l, ((memorize_fact_step ⟨⟨12, 34, 56, 7, 8, 2023⟩, ⟨12, 34, 56, 7, 8, 2023⟩⟩
        ⟨false, none⟩ "coffee machine is broken").factFile.getD []).getLast? =
        some l ∧
      l = strftimeHMSDMY ⟨12, 34, 56, 7, 8, 2023⟩ ++ " " ++
        "coffee machine is broken" ∧
      (∃ q, l = q ++ "coffee machine is broken") ∧
      matchesTS l.data = true :=
  memorize_fact_roundtrip ⟨⟨12, 34, 56, 7, 8, 2023⟩, ⟨12, 34, 56, 7, 8, 2023⟩⟩
    ⟨false, none⟩ "coffee machine is broken" (by decide)

/-- A clock reading at which the UTC and local wall clocks differ: UTC
reads 12:00:00 while the local zone (UTC+1) reads 13:00:00. -/
def clockEx : Clock :=
  ⟨⟨12, 0, 0, 1, 1, 2020⟩, ⟨13, 0, 0, 1, 1, 2020⟩⟩

/-- C6 counterexample: `memorize_fact` formats the timestamp from
`gmtime()` (UTC), not the local wall clock. At `clockEx` the appended
line is "12:00:00 01/01/2020 x", the UTC reading, while the local
reading would format as "13:00:00 01/01/2020"; the source behaviour
differs from the spec-worded (local-time) behaviour at this input. -/
theorem memorize_fact_local_time_cex :
    ((memorize_fact_step clockEx ⟨true, some []⟩ "x").factFile.getD []) =
      ["12:00:00 01/01/2020 x"] ∧
    strftimeHMSDMY clockEx.localtimeNow = "13:00:00 01/01/2020" ∧
    memorize_fact_step clockEx ⟨true, some []⟩ "x" ≠
      memorize_fact_localtime_spec clockEx ⟨true, some []⟩ "x" := by
  refine ⟨by decide, by decide, by decide⟩

/-- C6 (amended): the fact-append operation prefixes the fact with the
UTC wall-clock reading at call time (Python `gmtime()`), formatted as
24-hour `HH:MM:SS` followed by day-first `DD/MM/YYYY`; it creates the
parent location if the file is absent, and appends exactly one line,
leaving all previously stored lines unchanged. -/
theorem memorize_fact_append_utc (c : Clock) (fs : FactFS) (x : String)
    (hv : c.gmtimeNow.valid) :
    (memorize_fact_step c fs x).factFile =
      some (fs.factFile.getD [] ++ [strftimeHMSDMY c.gmtimeNow ++ " " ++ x]) ∧
    (fs.factFile = none → (memorize_fact_step c fs x).parentDirExists = true) ∧
    matchesTS ((strftimeHMSDMY c.gmtimeNow ++ " " ++ x).data) = true ∧
    ((memorize_fact_step c fs x).factFile.getD []).take
      (fs.factFile.getD []).length = fs.factFile.getD [] := by
  refine ⟨rfl, fun h => ?_, ?_, ?_⟩
  · simp [memorize_fact_step, save_fact, h]
  · have h := matchesTS_strftime c.gmtimeNow hv (" " ++ x)
    rwa [← String.append_assoc] at h
  · exact List.take_left _ _

/-- Witness for the amended C6: memorizing "x" at `clockEx` into a
never-created store creates the parent directory and stores the single
UTC-stamped line. -/
theorem memorize_fact_append_utc_witness :
    (memorize_fact_step clockEx ⟨false, none⟩ "x").factFile =
      some ((none : Option (List String)).getD [] ++
        [strftimeHMSDMY clockEx.gmtimeNow ++ " " ++ "x"]) ∧
    (memorize_fact_step clockEx ⟨false, none⟩ "x").parentDirExists = true ∧
    matchesTS ((strftimeHMSDMY clockEx.gmtimeNow ++ " " ++ "x").data) = true := by
  have h := memorize_fact_append_utc clockEx ⟨false, none⟩ "x" (by decide)
  exact ⟨h.1, h.2.1 rfl, h.2.2.1⟩

/-! ## Claims about the relevance filter and the façade routing -/

/-- C9: the relevance filter in passthrough mode returns the full fact
text unchanged, for every query, every fact text (including the empty
string), and every plugged-in ranker. -/
theorem filter_facts_passthrough (q t : String)
    (ranker : String → String → String) :
    filter_facts q t FilterMode.passthrough ranker = t :=
  rfl

/-- C10: one invocation of `main` performs at most one memory operation,
and the `if ...: return` chain gives a fixed priority order: when
`clear_facts` is set, neither memorize-fact nor retrieve-fact nor cache
recall runs; when `memorize_fact` is set, neither retrieve-fact nor
cache recall runs; when `retrieve_fact` is set, cache recall does not
run — regardless of the other flags. -/
theorem main_memory_op_priority (f : MainFlags) :
    (executedMemoryOps f).length ≤ 1 ∧
    (f.clear_facts = true →
      mainRoute f ≠ .memorizeFactOp ∧ mainRoute f ≠ .retrieveFactOp ∧
        mainRoute f ≠ .cacheRecallOp) ∧
    (f.memorize_fact = true →
      mainRoute f ≠ .retrieveFactOp ∧ mainRoute f ≠ .cacheRecallOp) ∧
    (f.retrieve_fact = true → mainRoute f ≠ .cacheRecallOp) := by
  obtain ⟨a, b, c, d, e, g, h⟩ := f
  cases a <;> cases b <;> cases c <;> cases d <;> cases e <;> cases g <;>
    cases h <;> decide

/-- Witness for C10: with every memory flag set at once (and a prompt
present), the routed operation is not memorize-fact, not retrieve-fact
and not cache recall (it is the clear-facts operation). -/
theorem main_memory_op_priority_witness :
    mainRoute ⟨false, true, true, true, true, true, false⟩ ≠ .memorizeFactOp ∧
    mainRoute ⟨false, true, true, true, true, true, false⟩ ≠ .cacheRecallOp :=
  ⟨((main_memory_op_priority ⟨false, true, true, true, true, true, false⟩).2.1
      rfl).1,
    (main_memory_op_priority ⟨false, true, true, true, true, true, false⟩).2.2.2
      rfl⟩

end Sgpt
